import Mathlib

/-!
Shallow embedding of the bulls-and-cows game server
(`src/server.js`, with the scoring variant of `src/unnamed/part_003` and
the device-token registration variant of `src/unnamed/part_006`).

The server keeps a single mutable map
`players : playerName => {socketId, inGame, opponentName, secret, currentTurn, disconnected, timer}`
and mutates it from socket.io event handlers.  We embed the map as an
insertion-ordered association list (JS object semantics: assigning to an
existing key updates it in place, assigning a fresh key appends, `delete`
removes it, `Object.entries` lists keys in insertion order).  Each handler
becomes a pure function `Registry → args → Registry × List OutEvent`
returning the new map together with the list of socket emissions, in
emission order.  `Math.random() < 0.5` in `lockSecret` is passed in as an
explicit coin, and each `setTimeout` callback body becomes its own step
function that the environment may fire at any time (the in-code guards
decide whether it acts).
-/

set_option autoImplicit false

/-- One record of the `players` map of `src/server.js`:
`{ socketId, inGame, opponentName, secret, currentTurn, disconnected, timer }`.
`socketId` is `none` when the field is `null` (connection dropped);
`timer` records whether a disconnect-grace `setTimeout` is pending
(`clearTimeout` + `= null` clears it). -/
structure Player where
  socketId : Option Nat
  inGame : Bool
  opponentName : Option String
  secret : Option String
  currentTurn : Bool
  disconnected : Bool
  timer : Bool
deriving Repr, DecidableEq

/-- A fresh record as built by `registerName` for an unknown name. -/
def Player.fresh (sid : Nat) : Player :=
  { socketId := some sid, inGame := false, opponentName := none, secret := none,
    currentTurn := false, disconnected := false, timer := false }

/-- The `players` object: an insertion-ordered key/value list with unique keys. -/
abbrev Registry := List (String × Player)

/-- `players[n]` (reading). -/
def Registry.find? (r : Registry) (n : String) : Option Player :=
  match r with
  | [] => none
  | (m, q) :: rest => if m = n then some q else Registry.find? rest n

/-- `players[n] = p`: update in place when the key exists, append otherwise. -/
def Registry.set (r : Registry) (n : String) (p : Player) : Registry :=
  match r with
  | [] => [(n, p)]
  | (m, q) :: rest => if m = n then (n, p) :: rest else (m, q) :: Registry.set rest n p

/-- `delete players[n]`. -/
def Registry.erase (r : Registry) (n : String) : Registry :=
  match r with
  | [] => []
  | (m, q) :: rest => if m = n then Registry.erase rest n else (m, q) :: Registry.erase rest n

theorem Registry.find_set_self (r : Registry) (n : String) (p : Player) :
    (r.set n p).find? n = some p := by
  induction r with
  | nil => simp [Registry.set, Registry.find?]
  | cons hd tl ih =>
    obtain ⟨m, q⟩ := hd
    by_cases h : m = n <;> simp [Registry.set, Registry.find?, h, ih]

theorem Registry.find_set_other (r : Registry) (n m : String) (p : Player) (h : m ≠ n) :
    (r.set n p).find? m = r.find? m := by
  induction r with
  | nil => simp [Registry.set, Registry.find?, Ne.symm h]
  | cons hd tl ih =>
    obtain ⟨k, q⟩ := hd
    by_cases hk : k = n
    · subst hk
      simp [Registry.set, Registry.find?, Ne.symm h]
    · by_cases hm : k = m
      · subst hm
        simp [Registry.set, Registry.find?, hk]
      · simp [Registry.set, Registry.find?, hk, hm, ih]

theorem Registry.find_erase_self (r : Registry) (n : String) :
    (r.erase n).find? n = none := by
  induction r with
  | nil => simp [Registry.erase, Registry.find?]
  | cons hd tl ih =>
    obtain ⟨m, q⟩ := hd
    by_cases h : m = n <;> simp [Registry.erase, Registry.find?, h, ih]

theorem Registry.find_erase_other (r : Registry) (n m : String) (h : m ≠ n) :
    (r.erase n).find? m = r.find? m := by
  induction r with
  | nil => simp [Registry.erase, Registry.find?]
  | cons hd tl ih =>
    obtain ⟨k, q⟩ := hd
    by_cases hk : k = n
    · subst hk
      simp [Registry.erase, Registry.find?, Ne.symm h, ih]
    · by_cases hm : k = m
      · subst hm
        simp [Registry.erase, Registry.find?, hk]
      · simp [Registry.erase, Registry.find?, hk, hm, ih]

/-! ## Scoring

`getFeedback(guess, secret)` of `src/server.js` walks positions 0..3 of the
two strings.  JS string indexing out of range yields `undefined`, so the
character at a position is an `Option Char`; `guess[i] === secret[i]`
compares those options (`undefined === undefined` is `true`), and
`secret.includes(guess[i])` coerces `undefined` to the text `"undefined"`
before the substring search. -/

/-- Substring search, as `String.prototype.includes` performs. -/
def hasSubstring (pat : List Char) (s : List Char) : Bool :=
  match s with
  | [] => pat.isEmpty
  | c :: rest => pat.isPrefixOf (c :: rest) || hasSubstring pat rest

/-- `s.includes(x)` where `x` is a character of the guess or `undefined`
(JS coerces `undefined` to the text `"undefined"` before searching). -/
def jsIncludes (s : List Char) (x : Option Char) : Bool :=
  match x with
  | some c => s.contains c
  | none => hasSubstring "undefined".data s

/-- One iteration of the `for (let i = 0; i < 4; i++)` loop of `getFeedback`
(also the counting loop of `getBullsAndCows` in `src/unnamed/part_006`),
acting on the `(bulls, cows)` accumulator. -/
def bcStep (guess secret : List Char) (acc : Nat × Nat) (i : Nat) : Nat × Nat :=
  if guess.get? i == secret.get? i then (acc.1 + 1, acc.2)
  else if jsIncludes secret (guess.get? i) then (acc.1, acc.2 + 1)
  else acc

/-- The `(bulls, cows)` pair computed by `getFeedback` of `src/server.js`
before it renders the emoji string. -/
def getBullsCows (guess secret : String) : Nat × Nat :=
  [0, 1, 2, 3].foldl (bcStep guess.data secret.data) (0, 0)

/-- `getFeedback` of `src/server.js`:
bulls/cows loop, then the emoji rendering
`'🐂'.repeat(bulls) + '🐄'.repeat(cows) + '💩'.repeat(4 - bulls - cows)`. -/
def getFeedback (guess secret : String) : String :=
  let bc := getBullsCows guess secret
  String.mk (List.replicate bc.1 '🐂' ++ List.replicate bc.2 '🐄' ++
    List.replicate (4 - bc.1 - bc.2) '💩')

/-! ### The `emojiFeedback` scorer of `src/unnamed/part_003`

It builds two frequency maps over the non-bull positions (`guessMap`,
`targetMap`, plain JS objects whose keys are inserted in loop order) and
then sums `Math.min(guessMap[d], targetMap[d])` over the keys of
`guessMap` that `targetMap` also holds. -/

/-- A JS object used as a frequency map, insertion-ordered; the key is the
character at a position (or `undefined`, for inputs shorter than 4). -/
def CountMap := List (Option Char × Nat)

/-- `m[k] || 0`. -/
def CountMap.get (m : CountMap) (k : Option Char) : Nat :=
  match m with
  | [] => 0
  | (j, c) :: rest => if j = k then c else CountMap.get rest k

/-- `m[k] = (m[k] || 0) + 1`. -/
def CountMap.bump (m : CountMap) (k : Option Char) : CountMap :=
  match m with
  | [] => [(k, 1)]
  | (j, c) :: rest => if j = k then (j, c + 1) :: rest else (j, c) :: CountMap.bump rest k

/-- The first loop of `emojiFeedback`: count bulls and fill both maps from
the non-bull positions. -/
def emojiFeedback.maps (guess target : List Char) : Nat × CountMap × CountMap :=
  [0, 1, 2, 3].foldl
    (fun acc i =>
      if guess.get? i == target.get? i then (acc.1 + 1, acc.2.1, acc.2.2)
      else (acc.1, acc.2.1.bump (guess.get? i), acc.2.2.bump (target.get? i)))
    (0, [], [])

/-- The `(bulls, cows)` pair computed by `emojiFeedback` of
`src/unnamed/part_003`. -/
def emojiFeedback.counts (guess target : String) : Nat × Nat :=
  let m := emojiFeedback.maps guess.data target.data
  let cows := m.2.1.foldl
    (fun acc e => if m.2.2.get e.1 ≠ 0 then acc + min e.2 (m.2.2.get e.1) else acc) 0
  (m.1, cows)

/-- `emojiFeedback` of `src/unnamed/part_003` (same emoji rendering as
`getFeedback`). -/
def emojiFeedback (guess target : String) : String :=
  let bc := emojiFeedback.counts guess target
  String.mk (List.replicate bc.1 '🐂' ++ List.replicate bc.2 '🐄' ++
    List.replicate (4 - bc.1 - bc.2) '💩')

/-- Modelled from the spec, §4.2 Scoring Engine: `evaluate(guess, secret)`
with `bulls` = count of equal positions and `cows` computed **with multiset
semantics** — for each distinct symbol,
`min(count in guess excluding bull positions, count in secret excluding bull positions)`,
summed.  This is the yardstick the claims compare the code's scorers to. -/
def specEvaluate (guess secret : String) : Nat × Nat :=
  let pairs := List.zip guess.data secret.data
  let bulls := (pairs.filter fun p => p.1 == p.2).length
  let g := (pairs.filter fun p => p.1 != p.2).map Prod.fst
  let s := (pairs.filter fun p => p.1 != p.2).map Prod.snd
  let cows := (g.dedup.map fun d => min (g.count d) (s.count d)).sum
  (bulls, cows)

/-! ## The event handlers of `src/server.js`

Each socket emission becomes an `OutEvent`; `io.to(sid).emit(...)` carries
the target socket id (which is `none` when the stored `socketId` is
`null`), `io.emit(...)` broadcasts the lobby snapshot. -/

/-- Outbound socket emissions of `src/server.js` (last four constructors:
additional emissions of the `src/unnamed/part_006` variants). -/
inductive OutEvent where
  | forceDisconnect (target : Option Nat)
  | nameRegistered (target : Option Nat)
  | updateLobby (snap : List (String × Bool))
  | challengeReceived (target : Option Nat) (challengerName : String)
  | redirectToMatch (target : Option Nat)
  | gameCanceled (target : Option Nat)
  | opponentLocked (target : Option Nat)
  | startGame (target : Option Nat) (yourTurn : Bool)
  | guessResult (target : Option Nat) (guess : String) (feedback : String)
  | opponentGuess (target : Option Nat) (guess : String) (feedback : String)
  | gameOver (target : Option Nat) (reason : String)
  | chatHistory (target : Option Nat)
  | nameTaken (target : Option Nat)
  | updateLobbyFull (snap : List (String × Bool × Option String))
  | syncState (target : Option Nat) (inGame : Bool) (you : String)
      (opponent : Option String) (yourTurn : Bool) (youLocked : Bool) (oppLocked : Bool)
deriving Repr, DecidableEq

/-- Whether an emission is the `nameTaken` rejection (the variants' wire
name for the spec's `NameCollision`). -/
def OutEvent.isNameTaken : OutEvent → Bool
  | OutEvent.nameTaken _ => true
  | _ => false

/-- Whether an emission is a `gameOver` verdict. -/
def OutEvent.isGameOver : OutEvent → Bool
  | OutEvent.gameOver _ _ => true
  | _ => false

/-- JS truthiness of a nullable string: `null`/`undefined` AND the empty
string are falsy, so guards such as `!player.opponentName` and
`!opponent.secret` in `src/server.js` reject both a missing value and
`""`. -/
def truthyStr (o : Option String) : Bool :=
  match o with
  | none => false
  | some s => !s.isEmpty

/-- `getLobbySnapshot()`: the `{name, inGame}` projection in insertion order. -/
def getLobbySnapshot (r : Registry) : List (String × Bool) :=
  r.map fun e => (e.1, e.2.inGame)

/-- The field resets `resetGame` applies to one record: clear the timer and
return the player to the free-lobby state. -/
def resetGame.resetP (p : Player) : Player :=
  { p with timer := false, inGame := false, opponentName := none,
           secret := none, currentTurn := false, disconnected := false }

/-- One half of `resetGame`: `if (players[n]) { clearTimeout; reset fields }`.
A `none` name stands for a `null` argument, whose `players[null]` lookup is
`undefined`, so the branch is skipped. -/
def resetGame.clearOne (r : Registry) (n : Option String) : Registry :=
  match n with
  | none => r
  | some name =>
    match r.find? name with
    | none => r
    | some p => r.set name (resetGame.resetP p)

/-- `resetGame(name1, name2)` of `src/server.js`. -/
def resetGame (r : Registry) (name1 name2 : Option String) : Registry :=
  resetGame.clearOne (resetGame.clearOne r name1) name2

/-- The `registerName` handler of `src/server.js`.  (`socket.data.playerName`
is recorded by the transport; our event model passes the caller name with
each later event instead.)  An existing record is reused: `forceDisconnect`
goes to its old socket when that differs, its grace timer is cleared, and it
is rebound to the new socket — match state untouched. -/
def registerName (r : Registry) (name : String) (sid : Nat) : Registry × List OutEvent :=
  match r.find? name with
  | some existing =>
    let evs := if existing.socketId ≠ some sid then [OutEvent.forceDisconnect existing.socketId] else []
    let r2 := r.set name { existing with timer := false, socketId := some sid, disconnected := false }
    (r2, evs ++ [OutEvent.nameRegistered (some sid), OutEvent.updateLobby (getLobbySnapshot r2)])
  | none =>
    let r2 := r.set name (Player.fresh sid)
    (r2, [OutEvent.nameRegistered (some sid), OutEvent.updateLobby (getLobbySnapshot r2)])

/-- The `challengePlayer` handler of `src/server.js`: refused unless both
records exist and neither is in a game. -/
def challengePlayer (r : Registry) (challengerName targetName : String) :
    Registry × List OutEvent :=
  match r.find? challengerName, r.find? targetName with
  | some challenger, some target =>
    if challenger.inGame || target.inGame then (r, [])
    else (r, [OutEvent.challengeReceived target.socketId challengerName])
  | _, _ => (r, [])

/-- The `acceptChallenge` handler of `src/server.js` (`opponentName` is the
caller).  Note the source only checks that both records exist — it does NOT
check `inGame` — and then writes `inGame`/`opponentName` of both records
field by field; the second record is re-read after the first write so that
the `challengerName = opponentName` aliasing behaves as the JS object
mutation does. -/
def acceptChallenge (r : Registry) (opponentName challengerName : String) :
    Registry × List OutEvent :=
  match r.find? challengerName, r.find? opponentName with
  | some challenger, some opponent =>
    let r1 := r.set challengerName { challenger with inGame := true, opponentName := some opponentName }
    let r2 :=
      match r1.find? opponentName with
      | some o => r1.set opponentName { o with inGame := true, opponentName := some challengerName }
      | none => r1
    (r2, [OutEvent.redirectToMatch challenger.socketId, OutEvent.redirectToMatch opponent.socketId,
          OutEvent.updateLobby (getLobbySnapshot r2)])
  | _, _ => (r, [])

/-- The `lockSecret` handler of `src/server.js`.  The `!player.opponentName`
guard rejects a missing opponent name AND the falsy empty string; likewise
`if (opponent && opponent.secret)` asks for a truthy (non-empty) secret.
No guard prevents locking again after the game started: whenever the
opponent already holds a truthy secret the random first-turn branch runs
and sets `currentTurn = true` on the chosen side
(`coin` = `Math.random() < 0.5`, `true` picks the caller). -/
def lockSecret (r : Registry) (name secret : String) (coin : Bool) :
    Registry × List OutEvent :=
  match r.find? name with
  | none => (r, [])
  | some player =>
    match player.opponentName with
    | none => (r, [OutEvent.gameCanceled player.socketId])
    | some opponentName =>
      if opponentName.isEmpty then (r, [OutEvent.gameCanceled player.socketId])
      else
      let r1 := r.set name { player with secret := some secret }
      match r1.find? opponentName with
      | none => (r1, [])
      | some opponent =>
        if truthyStr opponent.secret then
          let firstTurn := if coin then name else opponentName
          let r2 :=
            match r1.find? firstTurn with
            | some f => r1.set firstTurn { f with currentTurn := true }
            | none => r1
          let other := if firstTurn = name then opponentName else name
          (r2, [OutEvent.startGame ((r2.find? firstTurn).bind Player.socketId) true,
                OutEvent.startGame ((r2.find? other).bind Player.socketId) false])
        else if !opponent.disconnected && opponent.socketId.isSome then
          (r1, [OutEvent.opponentLocked opponent.socketId])
        else (r1, [])

/-- The `submitGuess` handler of `src/server.js`.  The only guards are
"caller exists and holds the turn" and `!opponent || !opponent.secret` —
the latter rejects a missing opponent, an unset secret AND a falsy
empty-string secret; the guess string itself is NOT validated.  On 4 bulls
the game ends and `resetGame` runs; otherwise the turn flips (the opponent
record is re-read after the caller's write, mirroring JS object
aliasing). -/
def submitGuess (r : Registry) (name guess : String) : Registry × List OutEvent :=
  match r.find? name with
  | none => (r, [])
  | some player =>
    if !player.currentTurn then (r, [])
    else
      match player.opponentName with
      | none => (r, [])
      | some opponentName =>
        match r.find? opponentName with
        | none => (r, [])
        | some opponent =>
          match opponent.secret with
          | none => (r, [])
          | some sec =>
            if sec.isEmpty then (r, [])
            else
            let feedback := getFeedback guess sec
            let evs := [OutEvent.guessResult player.socketId guess feedback,
                        OutEvent.opponentGuess opponent.socketId guess feedback]
            if feedback = "🐂🐂🐂🐂" then
              let r2 := resetGame r (some name) (some opponentName)
              (r2, evs ++ [OutEvent.gameOver player.socketId "win",
                           OutEvent.gameOver opponent.socketId "lose",
                           OutEvent.updateLobby (getLobbySnapshot r2)])
            else
              let r1 := r.set name { player with currentTurn := false }
              let r2 :=
                match r1.find? opponentName with
                | some o => r1.set opponentName { o with currentTurn := true }
                | none => r1
              (r2, evs ++ [OutEvent.startGame opponent.socketId true])

/-- The `timerExpired` handler of `src/server.js` (the client reports its
turn timer running out).  Guard: caller exists and still holds the turn.
When the opponent record is missing the source throws on
`opponent.socketId` right after the first emission, so nothing further
happens in that case. -/
def timerExpired (r : Registry) (name : String) : Registry × List OutEvent :=
  match r.find? name with
  | none => (r, [])
  | some player =>
    if !player.currentTurn then (r, [])
    else
      match player.opponentName.bind r.find? with
      | none => (r, [OutEvent.gameOver player.socketId "forfeit_lose"])
      | some opponent =>
        let r2 := resetGame r (some name) player.opponentName
        (r2, [OutEvent.gameOver player.socketId "forfeit_lose",
              OutEvent.gameOver opponent.socketId "forfeit_win",
              OutEvent.updateLobby (getLobbySnapshot r2)])

/-- The `disconnect` handler of `src/server.js` (minus the `setTimeout`
body, which is `graceTimerFired` below).  `if (!name) return` also drops a
registered-but-empty name, since `""` is falsy.  In-game: mark
disconnected, null the socket, start the 30s grace timer.  In lobby:
delete the record. -/
def onDisconnect (r : Registry) (name : Option String) : Registry × List OutEvent :=
  match name with
  | none => (r, [])
  | some n =>
    if n.isEmpty then (r, [])
    else
    match r.find? n with
    | none => (r, [])
    | some player =>
      if player.inGame then
        (r.set n { player with disconnected := true, socketId := none, timer := true }, [])
      else
        let r2 := r.erase n
        (r2, [OutEvent.updateLobby (getLobbySnapshot r2)])

/-- The body of the grace-period `setTimeout` scheduled by the `disconnect`
handler of `src/server.js`.  The closure reads `player.opponentName` from
the same live object that `players[name]` denotes whenever the guard
passes, so reading it through the registry is faithful.  If the player is
no longer marked disconnected the callback does nothing. -/
def graceTimerFired (r : Registry) (name : String) : Registry × List OutEvent :=
  match r.find? name with
  | none => (r, [])
  | some p =>
    if !p.disconnected then (r, [])
    else
      let opponentName := p.opponentName
      let evs :=
        match opponentName.bind r.find? with
        | some o => if o.socketId.isSome then [OutEvent.gameOver o.socketId "opponent_disconnected"] else []
        | none => []
      let r2 := (resetGame r (some name) opponentName).erase name
      (r2, evs ++ [OutEvent.updateLobby (getLobbySnapshot r2)])

/-- Inbound events, for writing whole traces.  The name arguments stand for
`socket.data.playerName` of the sending socket; `lockSecret` additionally
carries the `Math.random() < 0.5` draw, and `graceFired` is the runtime
firing a pending disconnect-grace timeout. -/
inductive InEvent where
  | registerName (name : String) (sid : Nat)
  | challengePlayer (caller target : String)
  | acceptChallenge (caller challenger : String)
  | lockSecret (caller secret : String) (coin : Bool)
  | submitGuess (caller guess : String)
  | timerExpired (caller : String)
  | disconnect (caller : Option String)
  | graceFired (name : String)
deriving Repr, DecidableEq

/-- Dispatch one inbound event, as the socket.io runtime serializes them. -/
def step (r : Registry) : InEvent → Registry × List OutEvent
  | .registerName name sid => registerName r name sid
  | .challengePlayer caller target => challengePlayer r caller target
  | .acceptChallenge caller challenger => acceptChallenge r caller challenger
  | .lockSecret caller secret coin => lockSecret r caller secret coin
  | .submitGuess caller guess => submitGuess r caller guess
  | .timerExpired caller => timerExpired r caller
  | .disconnect caller => onDisconnect r caller
  | .graceFired name => graceTimerFired r name

/-- Run a trace of inbound events from a registry, keeping the final state. -/
def run (r : Registry) (es : List InEvent) : Registry :=
  es.foldl (fun s e => (step s e).1) r

/-! ## The `registerName` handler of the device-token variant

The second document of `src/unnamed/part_006` keeps a `deviceId` on every
player record and receives one with each `registerName`; this namespace
embeds that handler and its helpers (`opponentOf`, `emitState`,
`lobbySnapshot`). -/

namespace Part006

/-- One record of the `players` map of the `src/unnamed/part_006` variant:
`{ name, socketId, deviceId, inGame, opponentName, secret, currentTurn, role, disconnectTs, disconnectTimer }`. -/
structure P6Player where
  name : String
  socketId : Option Nat
  deviceId : Option String
  inGame : Bool
  opponentName : Option String
  secret : Option String
  currentTurn : Bool
  role : Option String
  disconnectTs : Option Nat
  disconnectTimer : Bool
deriving Repr, DecidableEq

/-- The `players` object of the variant. -/
abbrev P6Registry := List (String × P6Player)

/-- `players[n]` (reading). -/
def P6Registry.find? (r : P6Registry) (n : String) : Option P6Player :=
  match r with
  | [] => none
  | (m, q) :: rest => if m = n then some q else P6Registry.find? rest n

/-- `players[n] = p`. -/
def P6Registry.set (r : P6Registry) (n : String) (p : P6Player) : P6Registry :=
  match r with
  | [] => [(n, p)]
  | (m, q) :: rest => if m = n then (n, p) :: rest else (m, q) :: P6Registry.set rest n p

theorem P6Registry.find_set_key (r : P6Registry) (n : String) (p : P6Player) :
    (r.set n p).find? n = some p := by
  induction r with
  | nil => simp [P6Registry.set, P6Registry.find?]
  | cons hd tl ih =>
    obtain ⟨m, q⟩ := hd
    by_cases h : m = n <;> simp [P6Registry.set, P6Registry.find?, h, ih]

/-- JS truthiness of a nullable string (null, undefined and the empty
string are falsy). -/
def jsTruthy (o : Option String) : Bool :=
  match o with
  | none => false
  | some s => !s.isEmpty

/-- `a || b` on nullable strings. -/
def jsOr (a b : Option String) : Option String :=
  if jsTruthy a then a else b

/-- `name.trim()`: strip leading and trailing whitespace (kept executable
by working on the character list). -/
def jsTrim (s : String) : String :=
  String.mk (((s.data.dropWhile Char.isWhitespace).reverse.dropWhile Char.isWhitespace).reverse)

/-- `opponentOf(name)` of the variant. -/
def opponentOf (r : P6Registry) (name : String) : Option P6Player :=
  match r.find? name with
  | none => none
  | some p =>
    match p.opponentName with
    | none => none
    | some oppName => r.find? oppName

/-- `emitState(toSocketId, whoName)` of the variant: the `syncState`
emission (empty when the player is unknown). -/
def emitState (r : P6Registry) (toSocketId : Option Nat) (whoName : String) : List OutEvent :=
  match r.find? whoName with
  | none => []
  | some me =>
    let opp := opponentOf r whoName
    [OutEvent.syncState toSocketId me.inGame me.name (opp.map P6Player.name)
      me.currentTurn me.secret.isSome (opp.map (fun o => o.secret.isSome) |>.getD false)]

/-- `lobbySnapshot()` of the variant: `{name, inGame, opponent}` triples. -/
def lobbySnapshot (r : P6Registry) : List (String × Bool × Option String) :=
  r.map fun e => (e.2.name, e.2.inGame, e.2.opponentName)

/-- The `registerName` handler of the `src/unnamed/part_006` device-token
variant, which receives `name` and `deviceId` together.  An existing
name is always rebound to the new connection (spread of the old record with
a fresh `socketId`); the device check only decides whether the OLD socket
is told to `forceDisconnect`.  No rejection path exists. -/
def registerName (r : P6Registry) (name : String) (sid : Nat) (deviceId : Option String) :
    P6Registry × List OutEvent :=
  if name.isEmpty then (r, [])
  else
    let n := jsTrim name
    match r.find? n with
    | some existing =>
      let evs :=
        if jsTruthy deviceId ∧ jsTruthy existing.deviceId ∧ deviceId ≠ existing.deviceId then
          if existing.socketId.isSome then [OutEvent.forceDisconnect existing.socketId] else []
        else []
      let r2 := r.set n { existing with name := n, socketId := some sid,
                                        deviceId := jsOr deviceId existing.deviceId,
                                        disconnectTs := none }
      let tail :=
        match r2.find? n with
        | some me =>
          if me.inGame then
            OutEvent.redirectToMatch (some sid) :: emitState r2 (some sid) n
          else []
        | none => []
      (r2, evs ++ [OutEvent.nameRegistered (some sid), OutEvent.chatHistory (some sid),
                   OutEvent.updateLobbyFull (lobbySnapshot r2)] ++ tail)
    | none =>
      let r2 := r.set n { name := n, socketId := some sid, deviceId := jsOr deviceId none,
                          inGame := false, opponentName := none, secret := none,
                          currentTurn := false, role := none, disconnectTs := none,
                          disconnectTimer := false }
      let tail :=
        match r2.find? n with
        | some me =>
          if me.inGame then
            OutEvent.redirectToMatch (some sid) :: emitState r2 (some sid) n
          else []
        | none => []
      (r2, [OutEvent.nameRegistered (some sid), OutEvent.chatHistory (some sid),
            OutEvent.updateLobbyFull (lobbySnapshot r2)] ++ tail)

end Part006

/-! ## Theorems -/

theorem bcStep_sum_le (g s : List Char) (acc : Nat × Nat) (i : Nat) :
    (bcStep g s acc i).1 + (bcStep g s acc i).2 ≤ acc.1 + acc.2 + 1 := by
  unfold bcStep
  split
  · omega
  · split
    · omega
    · omega

/-- C1: the per-character `secret.includes(guess[i])` cow count of
`getFeedback` in `src/server.js` disagrees with the multiset semantics the
spec demands once a symbol repeats.  At guess `"1112"` against secret
`"1234"` the code reports 3 cows where the multiset count (and the
`emojiFeedback` scorer of `src/unnamed/part_003`, which implements it) give
1 cow. -/
theorem C1_getFeedback_not_multiset :
    getBullsCows "1112" "1234" = (1, 3) ∧
    specEvaluate "1112" "1234" = (1, 1) ∧
    emojiFeedback.counts "1112" "1234" = (1, 1) ∧
    getFeedback "1112" "1234" = "🐂🐄🐄🐄" ∧
    emojiFeedback "1112" "1234" = "🐂🐄💩💩" := by decide

/-- C10: over completely arbitrary input strings, the `getFeedback` loop of
`src/server.js` adds at most one bull-or-cow per position over four
positions, so `bulls + cows ≤ 4`, the `'💩'.repeat(4 - bulls - cows)` count
never goes negative, and the emitted feedback string is always exactly 4
emoji. -/
theorem C10_feedback_always_four_emoji (guess secret : String) :
    (getBullsCows guess secret).1 + (getBullsCows guess secret).2 ≤ 4 ∧
    (0 : Int) ≤ 4 - (getBullsCows guess secret).1 - (getBullsCows guess secret).2 ∧
    (getFeedback guess secret).data.length = 4 := by
  have hsum : (getBullsCows guess secret).1 + (getBullsCows guess secret).2 ≤ 4 := by
    have h0 := bcStep_sum_le guess.data secret.data (0, 0) 0
    have h1 := bcStep_sum_le guess.data secret.data (bcStep guess.data secret.data (0, 0) 0) 1
    have h2 := bcStep_sum_le guess.data secret.data
      (bcStep guess.data secret.data (bcStep guess.data secret.data (0, 0) 0) 1) 2
    have h3 := bcStep_sum_le guess.data secret.data
      (bcStep guess.data secret.data
        (bcStep guess.data secret.data (bcStep guess.data secret.data (0, 0) 0) 1) 2) 3
    simp only [getBullsCows, List.foldl]
    omega
  refine ⟨hsum, by omega, ?_⟩
  simp only [getFeedback, String.mk, List.length_append, List.length_replicate]
  omega

/-- C2: the `acceptChallenge` handler of `src/server.js` checks only that
both records exist, not that they are unpaired.  After `A` and `B` pair up,
a third registered player `C` accepting a (never-sent) challenge from `A`
re-pairs `A` with `C`, marks `C` in-game, emits `redirectToMatch`, and
leaves `B` pointing at `A` — anything but a no-op. -/
theorem C2_acceptChallenge_overwrites_paired_player :
    (((run [] [.registerName "A" 1, .registerName "B" 2, .acceptChallenge "B" "A",
               .registerName "C" 3]).find? "A").map Player.inGame = some true) ∧
    (acceptChallenge (run [] [.registerName "A" 1, .registerName "B" 2,
        .acceptChallenge "B" "A", .registerName "C" 3]) "C" "A").1 ≠
      run [] [.registerName "A" 1, .registerName "B" 2, .acceptChallenge "B" "A",
              .registerName "C" 3] ∧
    (acceptChallenge (run [] [.registerName "A" 1, .registerName "B" 2,
        .acceptChallenge "B" "A", .registerName "C" 3]) "C" "A").2 ≠ [] ∧
    (((acceptChallenge (run [] [.registerName "A" 1, .registerName "B" 2,
        .acceptChallenge "B" "A", .registerName "C" 3]) "C" "A").1.find? "A").map
      Player.opponentName = some (some "C")) ∧
    (((acceptChallenge (run [] [.registerName "A" 1, .registerName "B" 2,
        .acceptChallenge "B" "A", .registerName "C" 3]) "C" "A").1.find? "C").map
      Player.inGame = some true) ∧
    (((acceptChallenge (run [] [.registerName "A" 1, .registerName "B" 2,
        .acceptChallenge "B" "A", .registerName "C" 3]) "C" "A").1.find? "B").map
      Player.opponentName = some (some "A")) := by decide

/-- C3 counterexample: `src/server.js` never validates the guess string.
With `A` holding the turn against `B`'s secret `"5678"`, the malformed
guess `"1111"` (repeated symbol) is scored and answered rather than being
silently dropped: emissions happen and the turn flips. -/
theorem C3_malformed_guess_processed :
    (submitGuess [("A", ⟨some 1, true, some "B", some "1234", true, false, false⟩),
                  ("B", ⟨some 2, true, some "A", some "5678", false, false, false⟩)]
      "A" "1111").2 ≠ [] ∧
    (submitGuess [("A", ⟨some 1, true, some "B", some "1234", true, false, false⟩),
                  ("B", ⟨some 2, true, some "A", some "5678", false, false, false⟩)]
      "A" "1111").1 ≠
      [("A", ⟨some 1, true, some "B", some "1234", true, false, false⟩),
       ("B", ⟨some 2, true, some "A", some "5678", false, false, false⟩)] := by decide

/-- C3 (amended): `submitGuess` in `src/server.js` is a silent no-op exactly
when the caller is unknown, does not hold the turn, or has no opponent with
a truthy locked secret (`!opponent.secret` also rejects the falsy empty
string); the shape of the guess plays no role (a malformed guess from the
turn-holder is scored and emitted normally). -/
theorem C3_submitGuess_silent_reject_iff (r : Registry) (n g : String) :
    submitGuess r n g = (r, []) ↔
      ¬ ∃ p, r.find? n = some p ∧ p.currentTurn = true ∧
        ∃ m o, p.opponentName = some m ∧ r.find? m = some o ∧ truthyStr o.secret = true := by
  constructor
  · intro h hex
    obtain ⟨p, hp, hturn, m, o, hopp, ho, hs⟩ := hex
    obtain ⟨sec, hsec, hempty⟩ : ∃ sec, o.secret = some sec ∧ sec.isEmpty = false := by
      unfold truthyStr at hs
      cases hsec : o.secret with
      | none => rw [hsec] at hs; exact absurd hs (by simp)
      | some sec =>
        rw [hsec] at hs
        exact ⟨sec, rfl, by simpa using hs⟩
    unfold submitGuess at h
    simp only [hp, hturn, hopp, ho, hsec, hempty, Bool.not_true, Bool.false_eq_true,
      if_false] at h
    split at h <;> simp at h
  · intro h
    unfold submitGuess
    cases hp : r.find? n with
    | none => rfl
    | some p =>
      cases hturn : p.currentTurn with
      | false => simp [hturn]
      | true =>
        simp only [hturn, Bool.not_true, Bool.false_eq_true, if_false]
        cases hopp : p.opponentName with
        | none => simp [hopp]
        | some m =>
          cases ho : r.find? m with
          | none => simp [hopp, ho]
          | some o =>
            cases hs : o.secret with
            | none => simp [hopp, ho, hs]
            | some sec =>
              cases hempty : sec.isEmpty with
              | true => simp [hopp, ho, hs, hempty]
              | false =>
                exact absurd ⟨p, hp, hturn, m, o, hopp, ho,
                  by simp [truthyStr, hs, hempty]⟩ h

theorem resetGame.clearOne_find_self (r : Registry) (n : String) :
    (resetGame.clearOne r (some n)).find? n = (r.find? n).map resetGame.resetP := by
  unfold resetGame.clearOne
  cases h : r.find? n with
  | none => simp [h]
  | some p => simp [h, Registry.find_set_self]

theorem resetGame.clearOne_find_other (r : Registry) (n m : String) (h : m ≠ n) :
    (resetGame.clearOne r (some n)).find? m = r.find? m := by
  unfold resetGame.clearOne
  cases hf : r.find? n with
  | none => simp [hf]
  | some p => simp [hf, Registry.find_set_other _ _ _ _ h]

/-- After `resetGame`, each of the two names is either unregistered or holds
a record that went through the field resets. -/
theorem resetGame_find_or (r : Registry) (n1 n2 n : String) (h : n = n1 ∨ n = n2) :
    (resetGame r (some n1) (some n2)).find? n = none ∨
    ∃ p, (resetGame r (some n1) (some n2)).find? n = some (resetGame.resetP p) := by
  unfold resetGame
  rcases h with h | h
  · subst h
    by_cases h2 : n = n2
    · subst h2
      rw [resetGame.clearOne_find_self]
      cases (resetGame.clearOne r (some n)).find? n with
      | none => exact Or.inl rfl
      | some q => exact Or.inr ⟨q, rfl⟩
    · rw [resetGame.clearOne_find_other _ _ _ h2, resetGame.clearOne_find_self]
      cases r.find? n with
      | none => exact Or.inl rfl
      | some q => exact Or.inr ⟨q, rfl⟩
  · subst h
    rw [resetGame.clearOne_find_self]
    cases (resetGame.clearOne r (some n1)).find? n with
    | none => exact Or.inl rfl
    | some q => exact Or.inr ⟨q, rfl⟩

theorem submitGuess_noop_of_cleared (r : Registry) (n : String)
    (h : r.find? n = none ∨ ∃ p, r.find? n = some (resetGame.resetP p)) (g : String) :
    submitGuess r n g = (r, []) := by
  unfold submitGuess
  rcases h with h | ⟨p, hp⟩
  · simp [h]
  · simp [hp, resetGame.resetP]

theorem lockSecret_canceled_of_cleared (r : Registry) (n s : String) (c : Bool)
    (h : r.find? n = none ∨ ∃ p, r.find? n = some (resetGame.resetP p)) :
    (lockSecret r n s c).1 = r ∧
    ((lockSecret r n s c).2 = [] ∨ ∃ t, (lockSecret r n s c).2 = [OutEvent.gameCanceled t]) := by
  unfold lockSecret
  rcases h with h | ⟨p, hp⟩
  · simp [h]
  · refine ⟨by simp [hp, resetGame.resetP], Or.inr ⟨p.socketId, ?_⟩⟩
    simp [hp, resetGame.resetP]

/-- C5 counterexample: after a won game is torn down by `resetGame`, a
further `lockSecret` from a participant is NOT silent — `src/server.js`
answers it with a `gameCanceled` emission to the caller. -/
theorem C5_lockSecret_after_termination_emits :
    (lockSecret (run [] [.registerName "A" 1, .registerName "B" 2, .acceptChallenge "B" "A",
        .lockSecret "A" "1234" true, .lockSecret "B" "5678" true, .submitGuess "B" "1234"])
      "A" "9999" true).2 = [OutEvent.gameCanceled (some 1)] := by decide

/-- C5 (amended): `resetGame` clears `opponentName`, `secret`, `currentTurn`,
the `inGame`/`disconnected` flags and the pending timer of both named
players; afterwards a `submitGuess` from either name is a complete no-op,
and a `lockSecret` from either name mutates nothing — but it may emit a
single `gameCanceled` notification to the caller rather than staying
silent. -/
theorem C5_terminated_session_inert (r : Registry) (n1 n2 g s : String) (c : Bool) :
    (((resetGame r (some n1) (some n2)).find? n1).all fun p =>
        p.opponentName.isNone && p.secret.isNone && !p.currentTurn && !p.timer &&
        !p.inGame && !p.disconnected) = true ∧
    (((resetGame r (some n1) (some n2)).find? n2).all fun p =>
        p.opponentName.isNone && p.secret.isNone && !p.currentTurn && !p.timer &&
        !p.inGame && !p.disconnected) = true ∧
    submitGuess (resetGame r (some n1) (some n2)) n1 g = (resetGame r (some n1) (some n2), []) ∧
    submitGuess (resetGame r (some n1) (some n2)) n2 g = (resetGame r (some n1) (some n2), []) ∧
    (lockSecret (resetGame r (some n1) (some n2)) n1 s c).1 = resetGame r (some n1) (some n2) ∧
    ((lockSecret (resetGame r (some n1) (some n2)) n1 s c).2 = [] ∨
      ∃ t, (lockSecret (resetGame r (some n1) (some n2)) n1 s c).2 = [OutEvent.gameCanceled t]) ∧
    (lockSecret (resetGame r (some n1) (some n2)) n2 s c).1 = resetGame r (some n1) (some n2) ∧
    ((lockSecret (resetGame r (some n1) (some n2)) n2 s c).2 = [] ∨
      ∃ t, (lockSecret (resetGame r (some n1) (some n2)) n2 s c).2 = [OutEvent.gameCanceled t]) := by
  have h1 := resetGame_find_or r n1 n2 n1 (Or.inl rfl)
  have h2 := resetGame_find_or r n1 n2 n2 (Or.inr rfl)
  have hall : ∀ n : String,
      (resetGame r (some n1) (some n2)).find? n = none ∨
        (∃ p, (resetGame r (some n1) (some n2)).find? n = some (resetGame.resetP p)) →
      (((resetGame r (some n1) (some n2)).find? n).all fun p =>
        p.opponentName.isNone && p.secret.isNone && !p.currentTurn && !p.timer &&
        !p.inGame && !p.disconnected) = true := by
    intro n h
    rcases h with h | ⟨p, hp⟩
    · simp [h]
    · simp [hp, resetGame.resetP]
  exact ⟨hall n1 h1, hall n2 h2,
    submitGuess_noop_of_cleared _ _ h1 g, submitGuess_noop_of_cleared _ _ h2 g,
    (lockSecret_canceled_of_cleared _ _ s c h1).1, (lockSecret_canceled_of_cleared _ _ s c h1).2,
    (lockSecret_canceled_of_cleared _ _ s c h2).1, (lockSecret_canceled_of_cleared _ _ s c h2).2⟩

/-- C6: while a player sits in the disconnect grace period, `registerName`
with the same name clears the pending grace timer, rebinds the record to
the new socket, and clears `disconnected` — leaving `opponentName`,
`secret` and `currentTurn` exactly as they were. -/
theorem C6_reconnect_preserves_match_state (r : Registry) (n : String) (sid : Nat) (p : Player)
    (hf : r.find? n = some p) (_hgrace : p.disconnected = true) :
    (registerName r n sid).1.find? n =
      some { p with socketId := some sid, disconnected := false, timer := false } := by
  unfold registerName
  simp only [hf]
  exact Registry.find_set_self _ _ _

/-- C6 witness: a concrete in-match player in the grace period reconnects
and keeps opponent, secret and turn. -/
theorem C6_reconnect_witness :
    (registerName [("A", ⟨none, true, some "B", some "1234", true, true, true⟩)] "A" 7).1.find? "A" =
      some ⟨some 7, true, some "B", some "1234", true, false, false⟩ :=
  C6_reconnect_preserves_match_state
    [("A", ⟨none, true, some "B", some "1234", true, true, true⟩)] "A" 7
    ⟨none, true, some "B", some "1234", true, true, true⟩ (by decide) (by decide)

/-- C4: nothing stops a player from sending `lockSecret` again after the
game has started, and the random-first-turn branch then sets
`currentTurn = true` on the drawn player without clearing the other side.
After `A`–`B` start (first turn drawn to `B`), a repeated `lockSecret` from
`A` whose draw picks `A` leaves BOTH mutually-paired, secret-holding
players with the turn — the one-turn-holder invariant fails. -/
theorem C4_repeated_lockSecret_two_turn_holders :
    (((run [] [.registerName "A" 1, .registerName "B" 2, .acceptChallenge "B" "A",
               .lockSecret "A" "1234" true, .lockSecret "B" "5678" true,
               .lockSecret "A" "1234" true]).find? "A").map
        (fun p => (p.currentTurn, p.inGame, p.opponentName, p.secret.isSome)) =
      some (true, true, some "B", true)) ∧
    (((run [] [.registerName "A" 1, .registerName "B" 2, .acceptChallenge "B" "A",
               .lockSecret "A" "1234" true, .lockSecret "B" "5678" true,
               .lockSecret "A" "1234" true]).find? "B").map
        (fun p => (p.currentTurn, p.inGame, p.opponentName, p.secret.isSome)) =
      some (true, true, some "A", true)) := by decide

/-- C7 counterexample: in the device-token variant
(`src/unnamed/part_006`), a `registerName` for a taken name coming from a
DIFFERENT device is not rejected and gets no suffix: the name is rebound to
the new socket with the match state intact (the mismatch merely sends
`forceDisconnect` to the old handle). -/
theorem C7_device_mismatch_still_rebinds :
    ((Part006.registerName
        [("A", ⟨"A", some 1, some "d1", true, some "B", some "1234", true, none, none, false⟩)]
        "A" 2 (some "d2")).1.find? "A").map
      (fun p => (p.socketId, p.deviceId, p.inGame, p.opponentName, p.secret)) =
      some (some 2, some "d2", true, some "B", some "1234") ∧
    OutEvent.forceDisconnect (some 1) ∈
      (Part006.registerName
        [("A", ⟨"A", some 1, some "d1", true, some "B", some "1234", true, none, none, false⟩)]
        "A" 2 (some "d2")).2 ∧
    ((Part006.registerName
        [("A", ⟨"A", some 1, some "d1", true, some "B", some "1234", true, none, none, false⟩)]
        "A" 2 (some "d2")).2.all fun e => !e.isNameTaken) = true := by decide

/-- C7 (amended): the variant's `registerName` rebinds a taken name to the
new connection unconditionally — whatever the device token — keeping the
record's match state, and never emits a `nameTaken` rejection; the token
comparison only governs the `forceDisconnect` sent to the previous
handle. -/
theorem C7_register_always_rebinds (r : Part006.P6Registry) (name : String) (sid : Nat)
    (tok : Option String) (p : Part006.P6Player)
    (hne : name.isEmpty = false) (hf : r.find? (Part006.jsTrim name) = some p) :
    ((Part006.registerName r name sid tok).1.find? (Part006.jsTrim name) =
      some { p with name := Part006.jsTrim name, socketId := some sid,
                    deviceId := Part006.jsOr tok p.deviceId, disconnectTs := none }) ∧
    ((Part006.registerName r name sid tok).2.all fun e => !e.isNameTaken) = true := by
  unfold Part006.registerName
  simp only [hne, Bool.false_eq_true, if_false, hf]
  refine ⟨Part006.P6Registry.find_set_key _ _ _, ?_⟩
  apply List.all_eq_true.mpr
  intro e he
  rw [Part006.P6Registry.find_set_key] at he
  simp only [List.mem_append] at he
  rcases he with (he | he) | he
  · split at he
    · split at he
      · simp only [List.mem_singleton] at he
        subst he
        rfl
      · simp at he
    · simp at he
  · simp only [List.mem_cons, List.not_mem_nil, or_false] at he
    rcases he with rfl | rfl | rfl <;> rfl
  · split at he
    · simp only [Part006.emitState, Part006.P6Registry.find_set_key, List.mem_cons,
        List.not_mem_nil, or_false] at he
      rcases he with rfl | rfl <;> rfl
    · simp at he

/-- C7 witness: a concrete taken name, re-registered with a fresh token,
is rebound with state kept and no rejection emitted. -/
theorem C7_register_always_rebinds_witness :
    ((Part006.registerName
        [("A", ⟨"A", some 1, some "d1", false, none, none, false, none, none, false⟩)]
        "A" 9 (some "d9")).1.find? (Part006.jsTrim "A") =
      some { name := Part006.jsTrim "A", socketId := some 9,
             deviceId := Part006.jsOr (some "d9") (some "d1"), inGame := false,
             opponentName := none, secret := none, currentTurn := false, role := none,
             disconnectTs := none, disconnectTimer := false }) ∧
    ((Part006.registerName
        [("A", ⟨"A", some 1, some "d1", false, none, none, false, none, none, false⟩)]
        "A" 9 (some "d9")).2.all fun e => !e.isNameTaken) = true :=
  C7_register_always_rebinds
    [("A", ⟨"A", some 1, some "d1", false, none, none, false, none, none, false⟩)]
    "A" 9 (some "d9")
    ⟨"A", some 1, some "d1", false, none, none, false, none, none, false⟩
    (by decide) (by decide)

/-- C8 counterexample: both players of a match disconnect; when `A`'s grace
timer fires, no `gameOver` is emitted (correct) and `A` is deleted — but
`B`'s record is NOT removed from the registry: `resetGame` cancelled `B`'s
own grace timer and cleared its `disconnected` flag, so the record lingers. -/
theorem C8_opponent_record_survives :
    (((graceTimerFired (run [] [.registerName "A" 1, .registerName "B" 2,
        .acceptChallenge "B" "A", .disconnect (some "A"), .disconnect (some "B")]) "A").1.find?
        "B").isSome = true) ∧
    ((graceTimerFired (run [] [.registerName "A" 1, .registerName "B" 2,
        .acceptChallenge "B" "A", .disconnect (some "A"), .disconnect (some "B")]) "A").1.find?
        "A" = none) ∧
    (((graceTimerFired (run [] [.registerName "A" 1, .registerName "B" 2,
        .acceptChallenge "B" "A", .disconnect (some "A"), .disconnect (some "B")]) "A").2.all
        fun e => !e.isGameOver) = true) := by decide

/-- C8 (amended): when a grace timer fires for `n` while both paired
players are still disconnected (so the opponent `m` has no socket), the
session is torn down with no `gameOver` to either side — the only emission
is the lobby broadcast — and `n` is removed from the registry; the
opponent's record, however, remains, merely reset by `resetGame`. -/
theorem C8_both_disconnected_no_winner (r : Registry) (n m : String) (p q : Player)
    (hnm : m ≠ n) (hp : r.find? n = some p) (hdisc : p.disconnected = true)
    (hopp : p.opponentName = some m) (hq : r.find? m = some q) (hqs : q.socketId = none) :
    (graceTimerFired r n).2 =
      [OutEvent.updateLobby (getLobbySnapshot (graceTimerFired r n).1)] ∧
    (graceTimerFired r n).1.find? n = none ∧
    (graceTimerFired r n).1.find? m = some (resetGame.resetP q) := by
  unfold graceTimerFired
  simp only [hp, hdisc, Bool.not_true, Bool.false_eq_true, if_false, hopp,
    Option.some_bind, hq, hqs, Option.isSome_none, List.nil_append]
  refine ⟨trivial, Registry.find_erase_self _ _, ?_⟩
  rw [Registry.find_erase_other _ _ _ hnm]
  unfold resetGame
  rw [resetGame.clearOne_find_self, resetGame.clearOne_find_other _ _ _ hnm, hq]
  rfl

/-- C8 witness: the two-disconnected-players scenario at a concrete
registry. -/
theorem C8_both_disconnected_no_winner_witness :
    (graceTimerFired [("A", ⟨none, true, some "B", some "1234", true, true, true⟩),
                      ("B", ⟨none, true, some "A", some "5678", false, true, true⟩)] "A").2 =
      [OutEvent.updateLobby (getLobbySnapshot
        (graceTimerFired [("A", ⟨none, true, some "B", some "1234", true, true, true⟩),
                          ("B", ⟨none, true, some "A", some "5678", false, true, true⟩)] "A").1)] ∧
    (graceTimerFired [("A", ⟨none, true, some "B", some "1234", true, true, true⟩),
                      ("B", ⟨none, true, some "A", some "5678", false, true, true⟩)] "A").1.find?
      "A" = none ∧
    (graceTimerFired [("A", ⟨none, true, some "B", some "1234", true, true, true⟩),
                      ("B", ⟨none, true, some "A", some "5678", false, true, true⟩)] "A").1.find?
      "B" = some (resetGame.resetP ⟨none, true, some "A", some "5678", false, true, true⟩) :=
  C8_both_disconnected_no_winner
    [("A", ⟨none, true, some "B", some "1234", true, true, true⟩),
     ("B", ⟨none, true, some "A", some "5678", false, true, true⟩)]
    "A" "B" ⟨none, true, some "B", some "1234", true, true, true⟩
    ⟨none, true, some "A", some "5678", false, true, true⟩
    (by decide) (by decide) (by decide) (by decide) (by decide) (by decide)

/-- C9: a fired timer whose guard no longer holds is a no-op — the
`timerExpired` handler does nothing when the named player is gone or no
longer holds the turn, and the disconnect-grace callback does nothing when
the named player is gone or no longer marked disconnected; in both cases
the registry is unchanged and nothing is emitted. -/
theorem C9_stale_timer_noop (r : Registry) (n : String) :
    (((r.find? n).all fun p => !p.currentTurn) = true → timerExpired r n = (r, [])) ∧
    (((r.find? n).all fun p => !p.disconnected) = true → graceTimerFired r n = (r, [])) := by
  constructor
  · intro h
    unfold timerExpired
    cases hf : r.find? n with
    | none => rfl
    | some p =>
      simp only [hf, Option.all_some, Bool.not_eq_true'] at h
      simp [h]
  · intro h
    unfold graceTimerFired
    cases hf : r.find? n with
    | none => rfl
    | some p =>
      simp only [hf, Option.all_some, Bool.not_eq_true'] at h
      simp [h]

/-- C9 witness: a registered player neither on turn nor disconnected; both
stale callbacks leave the registry alone and emit nothing. -/
theorem C9_stale_timer_noop_witness :
    timerExpired [("A", ⟨some 1, true, some "B", some "1234", false, false, false⟩)] "A" =
      ([("A", ⟨some 1, true, some "B", some "1234", false, false, false⟩)], []) ∧
    graceTimerFired [("A", ⟨some 1, true, some "B", some "1234", false, false, false⟩)] "A" =
      ([("A", ⟨some 1, true, some "B", some "1234", false, false, false⟩)], []) :=
  ⟨(C9_stale_timer_noop [("A", ⟨some 1, true, some "B", some "1234", false, false, false⟩)] "A").1
      (by decide),
   (C9_stale_timer_noop [("A", ⟨some 1, true, some "B", some "1234", false, false, false⟩)] "A").2
      (by decide)⟩
